import Mathlib

/-!
Verification development for the Worry Butler orchestration core.

Shallow embedding of:
  * `src/worry_butler/agents/base_agent.py`   (provider adapter: `process_message`)
  * `src/worry_butler/agents/concierge_agent.py` (response coercer: `generate_all`)
  * `src/worry_butler/core/worry_butler.py`   (orchestrator: `process_worry`)
  * `src/api.py` (presentation mapper: `SpriteSelector`, `create_ace_attorney_dialogue`)

Python strings are modelled as `List Char`; Python's `json.loads` is modelled by
an executable JSON parser (`jsonLoads`) over the same value grammar that the
standard library accepts (objects, arrays, strings with escapes, numbers kept
as lexemes, booleans, null, and the NaN/Infinity extensions).  Provider calls
are modelled by passing each call's backend outcome as an explicit argument;
`generate_all` additionally reports how many provider calls it made.
-/

namespace WorryButler

/-- Shorthand: the character list of a string literal. -/
def str (s : String) : List Char := s.toList

/-- Whitespace stripped by Python `str.strip()` (ASCII subset; the source only
ever strips ASCII model output). -/
def pyWs (c : Char) : Bool :=
  c = ' ' || c = '\t' || c = '\n' || c = '\r' || c = '\x0b' || c = '\x0c'

/-- Python `str.lstrip()`. -/
def lstrip (s : List Char) : List Char := s.dropWhile pyWs

/-- Python `str.rstrip()`. -/
def rstrip (s : List Char) : List Char := (s.reverse.dropWhile pyWs).reverse

/-- Python `str.strip()`. -/
def pyStrip (s : List Char) : List Char := lstrip (rstrip s)

/-- Python `str.lower()` on one character (ASCII range, as used by the source). -/
def lowerChar (c : Char) : Char :=
  if 'A' ≤ c && c ≤ 'Z' then Char.ofNat (c.toNat + 32) else c

/-- Python `str.lower()`. -/
def lowerL (s : List Char) : List Char := s.map lowerChar

/-- Python substring containment `pat in s`. -/
def containsSub : List Char → List Char → Bool
  | [], pat => pat.isEmpty
  | c :: rest, pat => pat.isPrefixOf (c :: rest) || containsSub rest pat

/-- Helper for `rfindSub`: largest index `i ≤ n` at which `pat` occurs in `s`. -/
def rfindFrom (s pat : List Char) : Nat → Option Nat
  | 0 => if pat.isPrefixOf s then some 0 else none
  | n + 1 => if pat.isPrefixOf (s.drop (n + 1)) then some (n + 1) else rfindFrom s pat n

/-- Python `str.rfind(pat)` (as an `Option`; the source compares with -1). -/
def rfindSub (s pat : List Char) : Option Nat := rfindFrom s pat s.length

/-- First index of a character, if present (used to model the regex
`\x7b[\s\S]*\x7d`, which spans from the first opening brace to the last
closing brace). -/
def firstIdx : List Char → Char → Option Nat
  | [], _ => none
  | a :: rest, c => if a = c then some 0 else (firstIdx rest c).map (· + 1)

/-- Last index of a character, if present. -/
def lastIdx (s : List Char) (c : Char) : Option Nat :=
  (firstIdx s.reverse c).map (fun i => s.length - 1 - i)

/-- The opening-brace character. -/
def obr : Char := Char.ofNat 123

/-- The closing-brace character. -/
def cbr : Char := Char.ofNat 125

/-- `re.search(r"\x7b[\s\S]*\x7d", text)`: the greedy match runs from the first
opening brace to the last closing brace, and exists iff such a span exists. -/
def extractBraces (s : List Char) : Option (List Char) :=
  match firstIdx s obr, lastIdx s cbr with
  | some i, some j => if i < j then some ((s.drop i).take (j - i + 1)) else none
  | _, _ => none

/-! ### A model of Python `json.loads` -/

/-- A parsed JSON value, as produced by Python `json.loads`.  Numbers are kept
as their source lexemes (the validation code only ever asks whether a value is
a string, never for a numeric value, so float semantics are not needed). -/
inductive JValue where
  | jstr (s : List Char)
  | jnum (lexeme : List Char)
  | jtrue
  | jfalse
  | jnull
  | jobj (fields : List (List Char × JValue))
  | jarr (elems : List JValue)

/-- JSON whitespace (what `json.loads` skips between tokens). -/
def jsonWs (c : Char) : Bool := c = ' ' || c = '\t' || c = '\n' || c = '\r'

/-- Skip JSON whitespace. -/
def skipWs (s : List Char) : List Char := s.dropWhile jsonWs

/-- Hexadecimal digit value of a character (digits, then both letter cases,
by code point). -/
def hexVal (c : Char) : Option Nat :=
  let n := c.toNat
  if 48 ≤ n && n ≤ 57 then some (n - 48)
  else if 97 ≤ n && n ≤ 102 then some (n - 87)
  else if 65 ≤ n && n ≤ 70 then some (n - 55)
  else none

/-- Python dict insertion: replace in place if the key exists, else append
(dicts built from JSON objects keep the first position and the last value of a
duplicated key). -/
def dictInsert (d : List (List Char × JValue)) (k : List Char) (v : JValue) :
    List (List Char × JValue) :=
  match d with
  | [] => [(k, v)]
  | (k', v') :: rest => if k' = k then (k', v) :: rest else (k', v') :: dictInsert rest k v

/-- Dict lookup. -/
def dictLookup (d : List (List Char × JValue)) (k : List Char) : Option JValue :=
  match d with
  | [] => none
  | (k', v) :: rest => if k' = k then some v else dictLookup rest k

/-- Dict key membership (`k in data` for a dict). -/
def dictContains (d : List (List Char × JValue)) (k : List Char) : Bool :=
  (dictLookup d k).isSome

/-- Parse the body of a JSON string after the opening quote.  Returns the
decoded characters and the rest of the input after the closing quote.  Python
decodes surrogate pairs in `\uXXXX` escapes; lone surrogates (which Python
tolerates but which are not `Char`s) make the model parser fail \u2014 no source
string exercises them. -/
def parseStrBody : Nat → List Char → Option (List Char × List Char)
  | 0, _ => none
  | fuel + 1, s =>
    match s with
    | [] => none
    | c :: rest =>
      if c = '"' then some ([], rest)
      else if c = '\\' then
        match rest with
        | [] => none
        | e :: rest2 =>
          if e = '"' then (parseStrBody fuel rest2).map (fun p => ('"' :: p.1, p.2))
          else if e = '\\' then (parseStrBody fuel rest2).map (fun p => ('\\' :: p.1, p.2))
          else if e = '/' then (parseStrBody fuel rest2).map (fun p => ('/' :: p.1, p.2))
          else if e = 'b' then (parseStrBody fuel rest2).map (fun p => ('\x08' :: p.1, p.2))
          else if e = 'f' then (parseStrBody fuel rest2).map (fun p => ('\x0c' :: p.1, p.2))
          else if e = 'n' then (parseStrBody fuel rest2).map (fun p => ('\n' :: p.1, p.2))
          else if e = 'r' then (parseStrBody fuel rest2).map (fun p => ('\r' :: p.1, p.2))
          else if e = 't' then (parseStrBody fuel rest2).map (fun p => ('\t' :: p.1, p.2))
          else if e = 'u' then
            match rest2 with
            | h1 :: h2 :: h3 :: h4 :: rest3 =>
              match hexVal h1, hexVal h2, hexVal h3, hexVal h4 with
              | some a, some b, some c1, some d1 =>
                let n := ((a * 16 + b) * 16 + c1) * 16 + d1
                if n < 0xd800 || 0xdfff < n then
                  (parseStrBody fuel rest3).map (fun p => (Char.ofNat n :: p.1, p.2))
                else if n ≤ 0xdbff then
                  match rest3 with
                  | '\\' :: 'u' :: g1 :: g2 :: g3 :: g4 :: rest4 =>
                    match hexVal g1, hexVal g2, hexVal g3, hexVal g4 with
                    | some a2, some b2, some c2, some d2 =>
                      let m := ((a2 * 16 + b2) * 16 + c2) * 16 + d2
                      if 0xdc00 ≤ m && m ≤ 0xdfff then
                        let cp := 0x10000 + (n - 0xd800) * 0x400 + (m - 0xdc00)
                        (parseStrBody fuel rest4).map (fun p => (Char.ofNat cp :: p.1, p.2))
                      else none
                    | _, _, _, _ => none
                  | _ => none
                else none
              | _, _, _, _ => none
            | _ => none
          else none
      else if c.toNat < 0x20 then none
      else (parseStrBody fuel rest).map (fun p => (c :: p.1, p.2))

/-- Consecutive decimal digits and the rest. -/
def digitSpan (s : List Char) : List Char × List Char :=
  (s.takeWhile Char.isDigit, s.dropWhile Char.isDigit)

/-- Lex the integer part of a JSON number (`0` or a nonzero digit followed by
digits). -/
def lexIntPart (s : List Char) : Option (List Char × List Char) :=
  match s with
  | [] => none
  | c :: rest =>
    if c = '0' then some ([c], rest)
    else if c.isDigit then
      let p := digitSpan rest
      some (c :: p.1, p.2)
    else none

/-- Lex an optional exponent part, given the lexeme so far. -/
def lexExpPart (pre : List Char) (s : List Char) : Option (List Char × List Char) :=
  match s with
  | [] => some (pre, s)
  | e :: r =>
    if e = 'e' || e = 'E' then
      let sr : List Char × List Char :=
        match r with
        | c :: rr => if c = '+' || c = '-' then ([c], rr) else ([], r)
        | [] => ([], r)
      let p := digitSpan sr.2
      if p.1.isEmpty then none else some (pre ++ e :: (sr.1 ++ p.1), p.2)
    else some (pre, s)

/-- Lex a JSON number (sign, integer part, optional fraction, optional
exponent), returning its lexeme. -/
def lexNumber (s : List Char) : Option (List Char × List Char) :=
  let sp : List Char × List Char :=
    match s with
    | '-' :: r => (['-'], r)
    | _ => ([], s)
  match lexIntPart sp.2 with
  | none => none
  | some (ip, s2) =>
    match s2 with
    | '.' :: r =>
      let p := digitSpan r
      if p.1.isEmpty then none else lexExpPart (sp.1 ++ ip ++ '.' :: p.1) p.2
    | _ => lexExpPart (sp.1 ++ ip) s2

mutual

/-- Parse one JSON value (after skipping leading whitespace), fueled. -/
def parseValue : Nat → List Char → Option (JValue × List Char)
  | 0, _ => none
  | fuel + 1, s =>
    match skipWs s with
    | [] => none
    | c :: rest =>
      if c = obr then
        match skipWs rest with
        | c2 :: rest2 =>
          if c2 = cbr then some (.jobj [], rest2) else parseMembers fuel (c2 :: rest2) []
        | [] => none
      else if c = '[' then
        match skipWs rest with
        | c2 :: rest2 =>
          if c2 = ']' then some (.jarr [], rest2) else parseElems fuel (c2 :: rest2) []
        | [] => none
      else if c = '"' then
        (parseStrBody fuel rest).map (fun p => (.jstr p.1, p.2))
      else if c = 't' then
        if (str "rue").isPrefixOf rest then some (.jtrue, rest.drop 3) else none
      else if c = 'f' then
        if (str "alse").isPrefixOf rest then some (.jfalse, rest.drop 4) else none
      else if c = 'n' then
        if (str "ull").isPrefixOf rest then some (.jnull, rest.drop 3) else none
      else if c = 'N' then
        if (str "aN").isPrefixOf rest then some (.jnum (str "NaN"), rest.drop 2) else none
      else if c = 'I' then
        if (str "nfinity").isPrefixOf rest then some (.jnum (str "Infinity"), rest.drop 7)
        else none
      else if c = '-' && (str "Infinity").isPrefixOf rest then
        some (.jnum (str "-Infinity"), rest.drop 8)
      else
        match lexNumber (c :: rest) with
        | some (lx, r) => some (.jnum lx, r)
        | none => none

/-- Parse the members of a JSON object, positioned at the first key. -/
def parseMembers : Nat → List Char → List (List Char × JValue) →
    Option (JValue × List Char)
  | 0, _, _ => none
  | fuel + 1, s, acc =>
    match skipWs s with
    | '"' :: rest =>
      match parseStrBody fuel rest with
      | none => none
      | some (key, r1) =>
        match skipWs r1 with
        | ':' :: r2 =>
          match parseValue fuel r2 with
          | none => none
          | some (v, r3) =>
            match skipWs r3 with
            | ',' :: r4 => parseMembers fuel r4 (dictInsert acc key v)
            | c :: r4 => if c = cbr then some (.jobj (dictInsert acc key v), r4) else none
            | [] => none
        | _ => none
    | _ => none

/-- Parse the elements of a JSON array, positioned at the first element. -/
def parseElems : Nat → List Char → List JValue → Option (JValue × List Char)
  | 0, _, _ => none
  | fuel + 1, s, acc =>
    match parseValue fuel s with
    | none => none
    | some (v, r) =>
      match skipWs r with
      | ',' :: r2 => parseElems fuel r2 (acc ++ [v])
      | c :: r2 => if c = ']' then some (.jarr (acc ++ [v]), r2) else none
      | [] => none

end

/-- Python `json.loads`: parse one value and require only whitespace after it. -/
def jsonLoads (s : List Char) : Option JValue :=
  match parseValue (4 * s.length + 8) s with
  | some (v, rest) => if skipWs rest = [] then some v else none
  | none => none

/-! ### Provider adapter (`base_agent.py`) -/

/-- The two supported backends. -/
inductive Provider where
  | openai
  | ollama
deriving DecidableEq

/-- The prefix of the string `_process_with_ollama` returns when the backend
call raises (line 237 of `base_agent.py`). -/
def apologyPrefix : List Char :=
  str "I apologize, but I encountered an error while processing your request: "

/-- `BaseAgent.process_message`, with the outcome of the single backend
invocation passed in explicitly (`.ok` = the normalized response text,
`.error` = the exception the backend raised).

* The OpenAI path (`_process_with_openai`) performs no exception handling of
  its own, and the `try/except` in `process_message` re-raises, so a backend
  error propagates to the caller.
* The Ollama path (`_process_with_ollama`) catches every backend exception and
  returns an apology string built from it instead of raising.

Neither path invokes the backend more than once. -/
def process_message (p : Provider) (backendResult : Except (List Char) (List Char)) :
    Except (List Char) (List Char) :=
  match p, backendResult with
  | .openai, r => r
  | .ollama, .ok s => .ok s
  | .ollama, .error e => .ok (apologyPrefix ++ e)

/-! ### Response coercer (`concierge_agent.py`, `ConciergeAgent.generate_all`) -/

/-- The backtick character. -/
def tick : Char := Char.ofNat 96

/-- A markdown fence delimiter (three backticks). -/
def fenceL : List Char := [tick, tick, tick]

/-- Markdown fence stripping, lines 90–102 of `concierge_agent.py`: if the
text starts with a fence, drop it (plus an optional `json` language tag) and
cut at the last closing fence; if there is no closing fence, strip backticks
and whitespace from both ends. -/
def stripFences (text : List Char) : List Char :=
  if fenceL.isPrefixOf text then
    let stripped := text.drop 3
    let stripped2 :=
      if (str "json").isPrefixOf (lowerL (lstrip stripped)) then (lstrip stripped).drop 4
      else stripped
    match rfindSub stripped2 fenceL with
    | some i => pyStrip (stripped2.take i)
    | none => pyStrip (((stripped2.dropWhile (· = tick)).reverse.dropWhile (· = tick)).reverse)
  else text

/-- `refusal_markers`, lines 122–129. -/
def refusalMarkers : List (List Char) :=
  [str "i can\x27t", str "i cannot", str "i won\x27t", str "cannot assist",
   str "i\x27m unable", str "i am unable"]

/-- `safety_keywords`, lines 130–141 (checked against the raw text). -/
def safetyKeywords : List (List Char) :=
  [str "illegal", str "unsafe", str "self-harm", str "self harm", str "suicide",
   str "kill myself", str "end my life", str "hurt myself", str "dangerous weapons",
   str "violence against"]

/-- `safety_keywords`, lines 176–180 (checked against the user worry after a
failed repair; this revision of the list additionally contains `murder`). -/
def safetyKeywordsRepair : List (List Char) :=
  [str "illegal", str "unsafe", str "self-harm", str "self harm", str "suicide",
   str "kill myself", str "end my life", str "hurt myself", str "murder",
   str "dangerous weapons", str "violence against"]

/-- `has_refusal`: some refusal marker occurs in the lowered text. -/
def hasRefusal (tl : List Char) : Bool := refusalMarkers.any (fun m => containsSub tl m)

/-- `has_safety`: some safety keyword occurs in the lowered text. -/
def hasSafety (tl : List Char) : Bool := safetyKeywords.any (fun k => containsSub tl k)

/-- `user_has_safety`: some (repair-stage) safety keyword occurs in the
lowered user worry. -/
def userHasSafety (uw : List Char) : Bool :=
  safetyKeywordsRepair.any (fun k => containsSub uw k)

/-- The horizontal-ellipsis character appended to long previews. -/
def ellipsisChar : Char := Char.ofNat 8230

/-- `preview = (text[:200] + "…") if len(text) > 200 else text`. -/
def previewOf (text : List Char) : List Char :=
  if 200 < text.length then text.take 200 ++ [ellipsisChar] else text

/-- The key `overthinker`. -/
def keyOverthinker : List Char := str "overthinker"

/-- The key `therapist`. -/
def keyTherapist : List Char := str "therapist"

/-- The key `executive`. -/
def keyExecutive : List Char := str "executive"

/-- The synthesized safe-redirect record, lines 147–151: produced only when
the raw text contains a refusal marker and a safety keyword and no JSON
object. -/
def safeFallbackDict (user_worry : List Char) : JValue :=
  .jobj
    [(keyOverthinker, .jstr (str "The prosecution halts \u2014 your stated worry (\u2018" ++
        user_worry.take 140 ++
        str "\u2019 ) veers toward danger. Catastrophe would follow; we refuse that path and redirect.")),
     (keyTherapist, .jstr (str "I\u2019m glad you said something. We won\u2019t plan anything harmful. Let\u2019s focus on what you need right now given \u2018" ++
        user_worry.take 140 ++
        str "\u2019: slow breaths, a glass of water, and someone you trust. If there\u2019s risk to anyone, seek immediate local help.")),
     (keyExecutive, .jstr (str "Pick one safe, legal step now \u2014 breathe, hydrate, and message a supportive contact."))]

/-- The synthesized benign-fallback record, lines 184–202: produced when the
repair call also fails to parse and the user worry contains no safety
keyword. -/
def benignFallbackDict (user_worry : List Char) : JValue :=
  .jobj
    [(keyOverthinker, .jstr (str "OBJECTION! The prosecution presents its case against your peace of mind! Picture this nightmare scenario unfolding before us: " ++
        user_worry.take 100 ++
        str " spirals into complete catastrophe! First, the immediate humiliation as everyone witnesses your failure! Then, the ripple effects spread like wildfire through every aspect of your life! Your reputation crumbles, your confidence shatters into a thousand pieces, and the shame follows you everywhere you go! The worst part? This could be just the beginning of a downward spiral that destroys everything you\x27ve worked for! Can you imagine the sleepless nights, the constant worry, the way people will look at you differently forever? The prosecution rests its case: this worry has the power to consume your entire existence!")),
     (keyTherapist, .jstr (str "I hear you, and what you\x27re feeling about " ++
        user_worry.take 100 ++
        str " makes complete sense. Anxiety has a way of painting these vivid, terrifying pictures, doesn\x27t it? But let\x27s take a step back together and examine this with compassion. Your mind is trying to protect you by imagining every possible threat, but it\x27s also creating suffering that doesn\x27t need to exist. Here\x27s what I want you to remember: most of our worst fears never actually come to pass. Your brain is designed to focus on potential dangers, but it often overestimates both the likelihood and the severity of bad outcomes. Let\x27s practice some grounding techniques right now. Take three deep breaths with me. Notice five things you can see, four things you can touch, three things you can hear. You have more strength and resilience than your anxiety wants you to believe. You\x27ve overcome challenges before, and you have the tools to handle whatever comes your way. Remember: you are not your thoughts, and this feeling will pass. You are capable, worthy, and stronger than you know.")),
     (keyExecutive, .jstr (str "Take one concrete action today: write down three realistic outcomes for this situation, then choose one small step you can control right now."))]

/-- Structured stand-ins for the exceptions `generate_all` can raise. -/
inductive GenError where
  | providerFailure (msg : List Char)
  | candidateFailure (preview : List Char)
  | repairFailure (preview : List Char)
  | invalidField (key : List Char)
  | typeIndexError (key : List Char)
  | typeIterError (key : List Char)

/-- One iteration of the validation loop (lines 209–211):
`if k not in data or not isinstance(data[k], str): raise ValueError(...)`.
Returns `none` when the field is a present string, otherwise the exception
the Python expression raises (`in` on a non-container and `data[k]` on a
non-dict raise `TypeError` instead of the loop's `ValueError`). -/
def checkField (data : JValue) (k : List Char) : Option GenError :=
  match data with
  | .jobj fields =>
    match dictLookup fields k with
    | none => some (.invalidField k)
    | some (.jstr _) => none
    | some _ => some (.invalidField k)
  | .jarr elems =>
    if elems.any (fun v => match v with | .jstr s => s = k | _ => false) then
      some (.typeIndexError k)
    else some (.invalidField k)
  | .jstr s =>
    if containsSub s k then some (.typeIndexError k) else some (.invalidField k)
  | _ => some (.typeIterError k)

/-- The validation loop over the three required keys, in source order; the
parsed value itself is returned on success (extra keys are not examined). -/
def validate (data : JValue) : Except GenError JValue :=
  match checkField data keyOverthinker with
  | some e => .error e
  | none =>
    match checkField data keyTherapist with
    | some e => .error e
    | none =>
      match checkField data keyExecutive with
      | some e => .error e
      | none => .ok data

/-- Outcome of the parse cascade on the (fence-stripped) first response,
lines 104–119: direct parse, then parse of the first-to-last brace span. -/
inductive ParseOutcome where
  | parsed (data : JValue)
  | candidateFailed
  | noJson

/-- The parse cascade on the fence-stripped text: `json.loads` directly, then
`re.search` for a brace span and `json.loads` on it; `candidateFailed` is the
`raise` at line 118, `noJson` enters the fallback logic at line 120. -/
def parseStage (text : List Char) : ParseOutcome :=
  match jsonLoads text with
  | some data => .parsed data
  | none =>
    match extractBraces text with
    | some candidate =>
      match jsonLoads candidate with
      | some data => .parsed data
      | none => .candidateFailed
    | none => .noJson

/-- `ConciergeAgent.generate_all`.  `r0` is the backend outcome of the initial
completion call and `r1` of the (at most one) repair call; the second
component of the result counts how many provider calls were made.  All control
flow of lines 84–213 is represented: fence stripping, direct parse, brace-span
parse, the refusal+safety synthesized record, the one-time repair, the benign
synthesized record, the two parse-failure exceptions, and the final
validation loop. -/
def generate_all (user_worry : List Char) (p : Provider)
    (r0 r1 : Except (List Char) (List Char)) : Except GenError JValue × Nat :=
  match process_message p r0 with
  | .error e => (.error (.providerFailure e), 1)
  | .ok raw =>
    let text := stripFences (pyStrip raw)
    match parseStage text with
    | .parsed data => (validate data, 1)
    | .candidateFailed => (.error (.candidateFailure (previewOf text)), 1)
    | .noJson =>
      if hasRefusal (lowerL text) && hasSafety (lowerL text) then
        (validate (safeFallbackDict user_worry), 1)
      else
        match process_message p r1 with
        | .error e => (.error (.providerFailure e), 2)
        | .ok repaired =>
          match jsonLoads (stripFences (pyStrip repaired)) with
          | some data => (validate data, 2)
          | none =>
            if userHasSafety (lowerL user_worry) then
              (.error (.repairFailure (previewOf text)), 2)
            else
              (validate (benignFallbackDict user_worry), 2)

/-! ### Orchestrator (`worry_butler.py`, `WorryButler.process_worry`) -/

/-- The successful result record of `process_worry` (the `metadata` entry is a
fixed literal and is omitted). -/
structure ProcessResult where
  original_worry : List Char
  overthinker_response : List Char
  therapist_response : List Char
  executive_summary : List Char

/-- `error_msg = f"Error in worry processing workflow: \x7bstr(e)\x7d"` (line 125). -/
def wrapWorkflowError (e : List Char) : List Char :=
  str "Error in worry processing workflow: " ++ e

/-- `WorryButler.process_worry`, with the outcome of each of the three agent
calls passed in explicitly in call order.  On the first agent exception the
handler at lines 123–148 builds `error_msg`, constructs a `partial_result`
dict holding the agent text produced so far, and then executes
`raise Exception(error_msg)` — so the raised exception carries only the
wrapped message, and the constructed `partial_result` (including all partial
agent text) is discarded. -/
def process_worry (user_worry : List Char)
    (ov th ex : Except (List Char) (List Char)) : Except (List Char) ProcessResult :=
  match ov with
  | .error e => .error (wrapWorkflowError e)
  | .ok o =>
    match th with
    | .error e => .error (wrapWorkflowError e)
    | .ok t =>
      match ex with
      | .error e => .error (wrapWorkflowError e)
      | .ok x =>
        .ok { original_worry := user_worry, overthinker_response := o,
              therapist_response := t, executive_summary := x }

/-! ### Presentation mapper (`api.py`: `SpriteSelector`, dialogue assembly) -/

/-- Association-list lookup with string keys (`dict.get`). -/
def lookupStr {α : Type} : List (String × α) → String → Option α
  | [], _ => none
  | (k, v) :: rest, key => if k = key then some v else lookupStr rest key

/-- `SpriteSelector.prosecutor_sprites` (insertion order preserved). -/
def prosecutor_sprites : List (String × List String) :=
  [("angry", ["prosecutor_angry1.gif", "prosecutor_angry2.gif"]),
   ("smug", ["prosecutor_smug1.gif", "prosecutor_smug2.gif", "prosecutor_smug3.gif"]),
   ("worried", ["prosecutor_worried1.gif", "prosecutor_worried2.gif"]),
   ("dramatic", ["prosecutor_angry1.gif", "prosecutor_angry2.gif"]),
   ("intense", ["prosecutor_smug1.gif", "prosecutor_smug2.gif"]),
   ("default", ["prosecutorempty.png"])]

/-- `SpriteSelector.defense_sprites`. -/
def defense_sprites : List (String × List String) :=
  [("calm", ["defense_calm1.gif", "defense_calm2.gif"]),
   ("cheerful", ["defense_reassuring1.gif", "defense_reassuring2.gif"]),
   ("reassuring", ["defense_reassuring1.gif", "defense_reassuring2.gif"]),
   ("confident", ["defense_calm1.gif", "defense_calm2.gif"]),
   ("gentle", ["defense_reassuring1.gif", "defense_reassuring2.gif"]),
   ("default", ["defenseempty.png"])]

/-- `SpriteSelector.judge_sprites`. -/
def judge_sprites : List (String × List String) :=
  [("neutral", ["judge-normal.gif"]),
   ("speaking", ["judge-speaking.gif"]),
   ("serious", ["judge-speaking.gif"]),
   ("thoughtful", ["judge-normal.gif"]),
   ("decisive", ["judge-speaking.gif"]),
   ("default", ["judgestand.png"])]

/-- `SpriteSelector.backgrounds`. -/
def backgrounds : List (String × String) :=
  [("prosecutor", "courtroom_prosecutor_bg.jpg"),
   ("defense", "courtroom_defense_bg.jpg"),
   ("judge", "courtroom_judge_bg.jpg")]

/-- `SpriteSelector.emotion_keywords`: the fixed per-role emotion → keyword
tables, in declaration order. -/
def emotion_keywords : List (String × List (String × List String)) :=
  [("prosecutor",
    [("angry", ["horror", "disaster", "catastrophe", "terrible", "awful", "horrible",
                "worst", "nightmare"]),
     ("smug", ["obviously", "clearly", "undoubtedly", "certainly", "evidently",
               "proven", "guilty"]),
     ("worried", ["perhaps", "maybe", "possibly", "could be", "might", "potential",
                  "risk"]),
     ("dramatic", ["oh no", "the horror", "unthinkable", "absolute worst", "shivers",
                   "dramatic"]),
     ("intense", ["extreme", "severe", "critical", "urgent", "desperate",
                  "catastrophic"])]),
   ("defense",
    [("calm", ["relax", "breathe", "it\x27s okay", "don\x27t worry", "stay calm",
               "peaceful"]),
     ("cheerful", ["great", "wonderful", "amazing", "fantastic", "excellent",
                   "positive", "bright"]),
     ("reassuring", ["you\x27re safe", "it\x27s normal", "everyone feels",
                     "understandable", "valid"]),
     ("confident", ["you can", "you will", "definitely", "absolutely", "certainly",
                    "assured"]),
     ("gentle", ["gently", "softly", "kindly", "carefully", "tenderly", "lovingly"])]),
   ("judge",
    [("neutral", ["verdict", "decision", "ruling", "conclusion", "summary", "final"]),
     ("speaking", ["therefore", "thus", "consequently", "as a result",
                   "in conclusion"]),
     ("serious", ["important", "crucial", "essential", "vital", "critical",
                  "significant"]),
     ("thoughtful", ["consider", "reflect", "think about", "contemplate", "ponder"]),
     ("decisive", ["must", "should", "will", "shall", "decide", "determine"])])]

/-- The nested scan of lines 235–238: for each emotion in declaration order,
return it as soon as one of its keywords occurs in the lowered text. -/
def scanEmotions (textLower : List Char) : List (String × List String) → Option String
  | [] => none
  | (emotion, keywords) :: rest =>
    if keywords.any (fun kw => containsSub textLower kw.toList) then some emotion
    else scanEmotions textLower rest

/-- `SpriteSelector.analyze_text_emotion`: lower-case the text, scan the
role's table in order, and fall back to the fixed per-role default. -/
def analyze_text_emotion (text character_type : String) : String :=
  let textLower := lowerL text.toList
  let character_emotions := (lookupStr emotion_keywords character_type).getD []
  match scanEmotions textLower character_emotions with
  | some emotion => emotion
  | none =>
    if character_type = "prosecutor" then "dramatic"
    else if character_type = "defense" then "calm"
    else "neutral"

/-- `SpriteSelector.select_sprite`: look up the emotion in the per-role sprite
table, falling back to that table's `"default"` entry, and return the first
frame of the animation sequence. -/
def select_sprite (character_type emotion : String) : String :=
  if character_type = "prosecutor" then
    ((lookupStr prosecutor_sprites emotion).getD
      ((lookupStr prosecutor_sprites "default").getD [])).headD ""
  else if character_type = "defense" then
    ((lookupStr defense_sprites emotion).getD
      ((lookupStr defense_sprites "default").getD [])).headD ""
  else if character_type = "judge" then
    ((lookupStr judge_sprites emotion).getD
      ((lookupStr judge_sprites "default").getD [])).headD ""
  else "unknown_character.gif"

/-- `SpriteSelector.select_background`. -/
def select_background (character_type : String) : String :=
  (lookupStr backgrounds character_type).getD "courtroom_default_bg.jpg"

/-- One dialogue line of the visual-novel response (`DialogueLine` in
`api.py`, lines 131–136: its five fields are `character`, `text`, `sprite`,
`background`, `description` — there is no staging-position field). -/
structure DialogueLine where
  character : String
  text : String
  sprite : String
  background : String
  description : String

/-- `create_ace_attorney_dialogue`, lines 307–380.  The three entries of the
`agent_responses` mapping that the function reads (`overthinker_response`,
`therapist_response`, `executive_summary`) are passed as the three text
arguments. -/
def create_ace_attorney_dialogue (original_worry overthinker_text therapist_text
    executive_text : String) : List DialogueLine :=
  [{ character := "PROSECUTOR",
     text := overthinker_text,
     sprite := select_sprite "prosecutor" (analyze_text_emotion overthinker_text "prosecutor"),
     background := select_background "prosecutor",
     description := "The prosecutor presents dramatic worst-case scenarios" },
   { character := "DEFENSE",
     text := therapist_text,
     sprite := select_sprite "defense" (analyze_text_emotion therapist_text "defense"),
     background := select_background "defense",
     description := "The defense attorney provides calm, CBT-based reassurance" },
   { character := "JUDGE",
     text := executive_text,
     sprite := select_sprite "judge" (analyze_text_emotion executive_text "judge"),
     background := select_background "judge",
     description := "The judge delivers the final, actionable verdict" }]

/-! ### Predicates used to state the claims -/

/-- `data` is a dict that maps the key `k` to a string value. -/
def hasStrKeyB (data : JValue) (k : List Char) : Bool :=
  match data with
  | .jobj fields =>
    match dictLookup fields k with
    | some (.jstr _) => true
    | _ => false
  | _ => false

/-- `data` maps each of the three required keys to a non-empty string. -/
def allFieldsNonEmpty (data : JValue) : Bool :=
  [keyOverthinker, keyTherapist, keyExecutive].all (fun k =>
    match data with
    | .jobj fields =>
      match dictLookup fields k with
      | some (.jstr s) => !s.isEmpty
      | _ => false
    | _ => false)

/-- Some field of a dialogue line equals the given staging-position word. -/
def mentionsPosition (dl : DialogueLine) (pos : String) : Bool :=
  dl.character = pos || dl.text = pos || dl.sprite = pos || dl.background = pos ||
    dl.description = pos

/-- A JSON record wrapped in markdown fences with a `json` language tag, the
shape of the spec's Scenario A. -/
def fenceWrapJson (J : List Char) : List Char :=
  fenceL ++ str "json" ++ '\n' :: (J ++ '\n' :: fenceL)

/-- A JSON record wrapped in markdown fences without a language tag. -/
def fenceWrapPlain (J : List Char) : List Char :=
  fenceL ++ '\n' :: (J ++ '\n' :: fenceL)

/-- Modelled from the spec: the fixed per-role default emotion the spec
prescribes (dramatic role → "dramatic", reassuring role → "calm", verdict
role → "neutral"), used to compare the source classifier against the claim's
wording. -/
def defaultEmotionSpec : String → String
  | "prosecutor" => "dramatic"
  | "defense" => "calm"
  | _ => "neutral"

/-! ### Supporting lemmas -/

/-- A passing field check means the value is a dict entry holding a string. -/
theorem checkField_none_hasStrKey (data : JValue) (k : List Char)
    (h : checkField data k = none) : hasStrKeyB data k = true := by
  cases data with
  | jobj fields =>
    simp only [checkField] at h
    cases hl : dictLookup fields k with
    | none => simp [hl] at h
    | some v =>
      cases v <;> simp [hl] at h <;> simp [hasStrKeyB, hl]
  | jarr elems =>
    simp only [checkField] at h
    split at h <;> simp at h
  | jstr s =>
    simp only [checkField] at h
    split at h <;> simp at h
  | jnum lx => simp [checkField] at h
  | jtrue => simp [checkField] at h
  | jfalse => simp [checkField] at h
  | jnull => simp [checkField] at h

/-- Successful validation returns its argument, which then has all three
required keys as string values. -/
theorem validate_ok (x d : JValue) (h : validate x = .ok d) :
    d = x ∧ hasStrKeyB x keyOverthinker = true ∧ hasStrKeyB x keyTherapist = true ∧
      hasStrKeyB x keyExecutive = true := by
  unfold validate at h
  cases h1 : checkField x keyOverthinker with
  | some e => rw [h1] at h; exact absurd h (by simp)
  | none =>
    rw [h1] at h
    cases h2 : checkField x keyTherapist with
    | some e => rw [h2] at h; exact absurd h (by simp)
    | none =>
      rw [h2] at h
      cases h3 : checkField x keyExecutive with
      | some e => rw [h3] at h; exact absurd h (by simp)
      | none =>
        rw [h3] at h
        have hd : d = x := by
          cases h; rfl
        exact ⟨hd, checkField_none_hasStrKey _ _ h1, checkField_none_hasStrKey _ _ h2,
          checkField_none_hasStrKey _ _ h3⟩

/-! ### Claim C5: provider failures in `process_message` -/

/-- C5 counterexample: on the Ollama path a backend failure is not surfaced —
`process_message` returns an ordinary-looking apology string built from the
exception text, refuting the claim that every backend failure is surfaced as
an error. -/
theorem c5_counterexample :
    process_message .ollama (.error (str "connection refused")) =
      .ok (apologyPrefix ++ str "connection refused") := rfl

/-- C5 (amended): a backend failure propagates to the caller on the OpenAI
path, but on the Ollama path it is caught and an apology string carrying the
error text is returned in its place; successful backend responses are passed
through unchanged, and neither path invokes the backend more than once (the
adapter performs no retry). -/
theorem c5_theorem :
    (∀ e : List Char, process_message .openai (.error e) = .error e) ∧
    (∀ e : List Char, process_message .ollama (.error e) = .ok (apologyPrefix ++ e)) ∧
    (∀ (p : Provider) (s : List Char), process_message p (.ok s) = .ok s) := by
  refine ⟨fun e => rfl, fun e => rfl, fun p s => ?_⟩
  cases p <;> rfl

/-! ### Claim C6: the orchestration error discards partial agent text -/

/-- C6: at a run where the overthinker agent succeeded with text
`dramatic scenario` and the therapist agent then raised `boom`, the
orchestrator raises an error that is exactly the wrapped message — the
partial agent text is not contained in it (the `partial_result` dict the
handler builds is discarded by `raise Exception(error_msg)`), contradicting
the documented intent of returning partial results with the error. -/
theorem c6_theorem :
    process_worry (str "test worry") (.ok (str "dramatic scenario"))
        (.error (str "boom")) (.ok (str "summary")) =
      .error (str "Error in worry processing workflow: boom") ∧
    containsSub (str "Error in worry processing workflow: boom")
      (str "dramatic scenario") = false := ⟨rfl, rfl⟩

/-! ### Claim C7: at most one extra provider round-trip -/

/-- C7: every invocation of `generate_all` makes at least the one initial
provider call and at most one more (the single repair call); the cascade is a
total function, so it always terminates. -/
theorem c7_theorem :
    ∀ (user_worry : List Char) (p : Provider) (r0 r1 : Except (List Char) (List Char)),
      1 ≤ (generate_all user_worry p r0 r1).2 ∧ (generate_all user_worry p r0 r1).2 ≤ 2 := by
  intro w p r0 r1
  unfold generate_all
  cases hpm : process_message p r0 with
  | error e => simp [hpm]
  | ok raw =>
    simp only [hpm]
    cases hps : parseStage (stripFences (pyStrip raw)) with
    | parsed data => simp [hps]
    | candidateFailed => simp [hps]
    | noJson =>
      simp only [hps]
      split
      · simp
      · cases hr1 : process_message p r1 with
        | error e => simp [hr1]
        | ok repaired =>
          simp only [hr1]
          cases hjl : jsonLoads (stripFences (pyStrip repaired)) with
          | some data => simp [hjl]
          | none =>
            simp only [hjl]
            split <;> simp

/-! ### Claim C4: the dialogue sequence -/

/-- C4 counterexample: for the bundle ("a", "b", "c") no field of any of the
three produced dialogue entries is `"left"`, `"right"` or `"center"` — the
entries carry no staging position at all (`DialogueLine` has no such field),
refuting the claim that the three entries carry the positions
`["left", "right", "center"]`. -/
theorem c4_counterexample :
    ((create_ace_attorney_dialogue "my worry" "a" "b" "c").any
      (fun dl => mentionsPosition dl "left" || mentionsPosition dl "right" ||
        mentionsPosition dl "center")) = false := by decide

/-- C4 (amended): for every bundle with non-empty text in each field,
`create_ace_attorney_dialogue` returns exactly 3 entries in the fixed role
order — dramatic (PROSECUTOR) first, reassuring (DEFENSE) second, verdict
(JUDGE) third — each carrying its role's fixed background
(`courtroom_prosecutor_bg.jpg`, `courtroom_defense_bg.jpg`,
`courtroom_judge_bg.jpg`); the entries have no staging-position field. -/
theorem c4_theorem :
    ∀ w a b c : String, a ≠ "" → b ≠ "" → c ≠ "" →
      (create_ace_attorney_dialogue w a b c).length = 3 ∧
      (create_ace_attorney_dialogue w a b c).map DialogueLine.character =
        ["PROSECUTOR", "DEFENSE", "JUDGE"] ∧
      (create_ace_attorney_dialogue w a b c).map DialogueLine.text = [a, b, c] ∧
      (create_ace_attorney_dialogue w a b c).map DialogueLine.background =
        ["courtroom_prosecutor_bg.jpg", "courtroom_defense_bg.jpg",
         "courtroom_judge_bg.jpg"] := by
  intro w a b c _ _ _
  exact ⟨rfl, rfl, rfl, rfl⟩

/-- C4 witness: the amended statement at the concrete bundle
("x", "y", "z"). -/
theorem c4_witness :
    (create_ace_attorney_dialogue "w" "x" "y" "z").length = 3 ∧
    (create_ace_attorney_dialogue "w" "x" "y" "z").map DialogueLine.character =
      ["PROSECUTOR", "DEFENSE", "JUDGE"] ∧
    (create_ace_attorney_dialogue "w" "x" "y" "z").map DialogueLine.text =
      ["x", "y", "z"] ∧
    (create_ace_attorney_dialogue "w" "x" "y" "z").map DialogueLine.background =
      ["courtroom_prosecutor_bg.jpg", "courtroom_defense_bg.jpg",
       "courtroom_judge_bg.jpg"] :=
  c4_theorem "w" "x" "y" "z" (by decide) (by decide) (by decide)

/-! ### Claim C9: emotion classification -/

/-- The nested keyword scan agrees with "first table entry one of whose
keywords occurs in the text". -/
theorem scanEmotions_eq_find (tl : List Char) (tbl : List (String × List String)) :
    scanEmotions tl tbl =
      (tbl.find? (fun q => q.2.any (fun kw => containsSub tl kw.toList))).map Prod.fst := by
  induction tbl with
  | nil => rfl
  | cons hd rest ih =>
    obtain ⟨e, kws⟩ := hd
    simp only [scanEmotions]
    split
    next h => rw [List.find?_cons_of_pos _ (by exact h)]; rfl
    next h =>
      rw [List.find?_cons_of_neg _ (by simpa using h)]
      exact ih

/-- A successful scan returns one of the table's emotions. -/
theorem scanEmotions_mem (tl : List Char) (tbl : List (String × List String))
    (e : String) (h : scanEmotions tl tbl = some e) : e ∈ tbl.map Prod.fst := by
  induction tbl with
  | nil => simp [scanEmotions] at h
  | cons hd rest ih =>
    simp only [scanEmotions] at h
    split at h
    · cases h; simp
    · simp [ih h]

/-- C9: for each of the three roles, `analyze_text_emotion` lower-cases the
text and returns the first emotion (in declared table order) one of whose
keywords (in list order) occurs as a substring, falling back to the fixed
per-role default (`dramatic`, `calm`, `neutral`) when no keyword matches. -/
theorem c9_theorem :
    ∀ (text r : String), r ∈ ["prosecutor", "defense", "judge"] →
      analyze_text_emotion text r =
        match ((lookupStr emotion_keywords r).getD []).find?
            (fun q => q.2.any (fun kw => containsSub (lowerL text.toList) kw.toList)) with
        | some q => q.1
        | none => defaultEmotionSpec r := by
  intro text r hr
  have step1 : analyze_text_emotion text r =
      match scanEmotions (lowerL text.toList) ((lookupStr emotion_keywords r).getD []) with
      | some emotion => emotion
      | none => if r = "prosecutor" then "dramatic"
          else if r = "defense" then "calm" else "neutral" := rfl
  rw [step1, scanEmotions_eq_find]
  simp only [List.mem_cons, List.not_mem_nil, or_false] at hr
  rcases hr with rfl | rfl | rfl <;>
    cases ((lookupStr emotion_keywords _).getD []).find?
        (fun q => q.2.any (fun kw => containsSub (lowerL text.toList) kw.toList)) <;>
      rfl

/-- C9 witness: the characterization at a concrete prosecutor text in which
keywords of several emotions co-occur (`worst`, `nightmare` from `angry`;
`obviously` from `smug`; `absolute worst` from `dramatic`). -/
theorem c9_witness :
    analyze_text_emotion "The absolute worst nightmare, obviously" "prosecutor" =
      match ((lookupStr emotion_keywords "prosecutor").getD []).find?
          (fun q => q.2.any (fun kw =>
            containsSub (lowerL ("The absolute worst nightmare, obviously" : String).toList)
              kw.toList)) with
      | some q => q.1
      | none => defaultEmotionSpec "prosecutor" :=
  c9_theorem "The absolute worst nightmare, obviously" "prosecutor" (by simp)

/-! ### Claim C10: classification output always hits the sprite tables -/

/-- C10: for each of the three roles, every emotion `analyze_text_emotion`
can return (a key of the role's keyword table, or the role's hard-coded
default) is a key of the role's sprite table, so `select_sprite`'s defensive
fall-through to the `"default"` entry is never taken for classifier output. -/
theorem c10_theorem :
    ∀ text : String,
      (lookupStr prosecutor_sprites (analyze_text_emotion text "prosecutor")).isSome = true ∧
      (lookupStr defense_sprites (analyze_text_emotion text "defense")).isSome = true ∧
      (lookupStr judge_sprites (analyze_text_emotion text "judge")).isSome = true := by
  intro text
  refine ⟨?_, ?_, ?_⟩
  · have step : analyze_text_emotion text "prosecutor" =
        match scanEmotions (lowerL text.toList)
            ((lookupStr emotion_keywords "prosecutor").getD []) with
        | some emotion => emotion
        | none => "dramatic" := rfl
    rw [step]
    cases h : scanEmotions (lowerL text.toList)
        ((lookupStr emotion_keywords "prosecutor").getD []) with
    | none => rfl
    | some e =>
      have hm := scanEmotions_mem _ _ _ h
      have hk : ((lookupStr emotion_keywords "prosecutor").getD []).map Prod.fst =
          ["angry", "smug", "worried", "dramatic", "intense"] := rfl
      rw [hk] at hm
      simp only [List.mem_cons, List.not_mem_nil, or_false] at hm
      rcases hm with rfl | rfl | rfl | rfl | rfl <;> rfl
  · have step : analyze_text_emotion text "defense" =
        match scanEmotions (lowerL text.toList)
            ((lookupStr emotion_keywords "defense").getD []) with
        | some emotion => emotion
        | none => "calm" := rfl
    rw [step]
    cases h : scanEmotions (lowerL text.toList)
        ((lookupStr emotion_keywords "defense").getD []) with
    | none => rfl
    | some e =>
      have hm := scanEmotions_mem _ _ _ h
      have hk : ((lookupStr emotion_keywords "defense").getD []).map Prod.fst =
          ["calm", "cheerful", "reassuring", "confident", "gentle"] := rfl
      rw [hk] at hm
      simp only [List.mem_cons, List.not_mem_nil, or_false] at hm
      rcases hm with rfl | rfl | rfl | rfl | rfl <;> rfl
  · have step : analyze_text_emotion text "judge" =
        match scanEmotions (lowerL text.toList)
            ((lookupStr emotion_keywords "judge").getD []) with
        | some emotion => emotion
        | none => "neutral" := rfl
    rw [step]
    cases h : scanEmotions (lowerL text.toList)
        ((lookupStr emotion_keywords "judge").getD []) with
    | none => rfl
    | some e =>
      have hm := scanEmotions_mem _ _ _ h
      have hk : ((lookupStr emotion_keywords "judge").getD []).map Prod.fst =
          ["neutral", "speaking", "serious", "thoughtful", "decisive"] := rfl
      rw [hk] at hm
      simp only [List.mem_cons, List.not_mem_nil, or_false] at hm
      rcases hm with rfl | rfl | rfl | rfl | rfl <;> rfl

/-! ### Claim C1: the safe-redirect fallback -/

/-- C1 counterexample: raw output `I cannot help with that.` (refusal, no
safety keyword in the raw text) with user worry `I want to hurt myself` and a
repair call that also fails: `generate_all` raises the repair parse-failure
error — it does not return the safe-redirect record. -/
theorem c1_counterexample :
    generate_all (str "I want to hurt myself") .ollama
        (.ok (str "I cannot help with that.")) (.ok (str "I cannot help with that.")) =
      (.error (.repairFailure (str "I cannot help with that.")), 2) := rfl

/-- C1 (amended): the synthesized safe-redirect record is returned (without
an error, with non-empty de-escalation text in all three fields) exactly when
the raw text itself contains both a refusal marker and a safety keyword and no
parseable JSON; a safety phrase that appears only in the user worry does not
trigger it. -/
theorem c1_theorem :
    ∀ (user_worry raw : List Char) (p : Provider) (r1 : Except (List Char) (List Char)),
      parseStage (stripFences (pyStrip raw)) = ParseOutcome.noJson →
      hasRefusal (lowerL (stripFences (pyStrip raw))) = true →
      hasSafety (lowerL (stripFences (pyStrip raw))) = true →
      generate_all user_worry p (.ok raw) r1 = (.ok (safeFallbackDict user_worry), 1) ∧
      allFieldsNonEmpty (safeFallbackDict user_worry) = true := by
  intro w raw p r1 h1 h2 h3
  have hpm : process_message p (.ok raw) = .ok raw := by cases p <;> rfl
  have hval : validate (safeFallbackDict w) = .ok (safeFallbackDict w) := rfl
  exact ⟨by simp [generate_all, hpm, h1, h2, h3, hval], rfl⟩

/-- C1 witness: the amended statement at a concrete refusal-with-safety raw
text. -/
theorem c1_witness :
    generate_all (str "exam stress") .ollama
        (.ok (str "I cannot help with that. It would be unsafe.")) (.ok (str "x")) =
      (.ok (safeFallbackDict (str "exam stress")), 1) ∧
    allFieldsNonEmpty (safeFallbackDict (str "exam stress")) = true :=
  c1_theorem (str "exam stress") (str "I cannot help with that. It would be unsafe.")
    .ollama (.ok (str "x")) rfl rfl rfl

/-! ### Claim C2: validation of the returned record -/

/-- C2 counterexample: a parsed record with a fourth key `extra` passes
validation and is returned as-is — the claim that any key beyond the three is
rejected is false. -/
theorem c2_counterexample :
    generate_all (str "w") .ollama
        (.ok (str "\x7b\"overthinker\":\"a\",\"therapist\":\"b\",\"executive\":\"c\",\"extra\":\"d\"\x7d"))
        (.ok (str "x")) =
      (.ok (JValue.jobj [(keyOverthinker, .jstr (str "a")), (keyTherapist, .jstr (str "b")),
        (keyExecutive, .jstr (str "c")), (str "extra", .jstr (str "d"))]), 1) ∧
    dictContains [(keyOverthinker, .jstr (str "a")), (keyTherapist, .jstr (str "b")),
        (keyExecutive, .jstr (str "c")), (str "extra", .jstr (str "d"))] (str "extra") =
      true := ⟨rfl, rfl⟩

/-- A pair equation with an error on the left cannot have an ok on the
right. -/
theorem pair_error_ne {e : GenError} {d : JValue} {k n : Nat}
    (h : ((Except.error e : Except GenError JValue), k) = (Except.ok d, n)) : False := by
  injection h with h1 _
  exact Except.noConfusion h1

/-- C2 (amended): whenever `generate_all` returns successfully, the returned
record maps each of the three required keys to a string value, and a parsed
record with a missing required key or a non-string value at a required key is
rejected with a validation error; keys beyond the three are not examined and
are returned as-is. -/
theorem c2_theorem :
    (∀ (user_worry : List Char) (p : Provider) (r0 r1 : Except (List Char) (List Char))
      (d : JValue) (n : Nat), generate_all user_worry p r0 r1 = (.ok d, n) →
        hasStrKeyB d keyOverthinker = true ∧ hasStrKeyB d keyTherapist = true ∧
          hasStrKeyB d keyExecutive = true) ∧
    (∀ fields : List (List Char × JValue),
      hasStrKeyB (.jobj fields) keyOverthinker = false ∨
        hasStrKeyB (.jobj fields) keyTherapist = false ∨
        hasStrKeyB (.jobj fields) keyExecutive = false →
      ∃ e, validate (.jobj fields) = .error e) := by
  constructor
  · intro w p r0 r1 d n h
    unfold generate_all at h
    cases hpm : process_message p r0 with
    | error e => simp only [hpm] at h; exact absurd h (fun hh => pair_error_ne hh)
    | ok raw =>
      simp only [hpm] at h
      cases hps : parseStage (stripFences (pyStrip raw)) with
      | parsed data =>
        simp only [hps] at h
        injection h with h1 _
        obtain ⟨hdx, k1, k2, k3⟩ := validate_ok _ _ h1
        subst hdx
        exact ⟨k1, k2, k3⟩
      | candidateFailed =>
        simp only [hps] at h
        exact absurd h (fun hh => pair_error_ne hh)
      | noJson =>
        simp only [hps] at h
        split at h
        · injection h with h1 _
          obtain ⟨hdx, k1, k2, k3⟩ := validate_ok _ _ h1
          subst hdx
          exact ⟨k1, k2, k3⟩
        · cases hr1 : process_message p r1 with
          | error e => simp only [hr1] at h; exact absurd h (fun hh => pair_error_ne hh)
          | ok rep =>
            simp only [hr1] at h
            cases hjl : jsonLoads (stripFences (pyStrip rep)) with
            | some data =>
              simp only [hjl] at h
              injection h with h1 _
              obtain ⟨hdx, k1, k2, k3⟩ := validate_ok _ _ h1
              subst hdx
              exact ⟨k1, k2, k3⟩
            | none =>
              simp only [hjl] at h
              split at h
              · exact absurd h (fun hh => pair_error_ne hh)
              · injection h with h1 _
                obtain ⟨hdx, k1, k2, k3⟩ := validate_ok _ _ h1
                subst hdx
                exact ⟨k1, k2, k3⟩
  · intro fields hbad
    cases hv : validate (.jobj fields) with
    | error e => exact ⟨e, rfl⟩
    | ok y =>
      obtain ⟨-, k1, k2, k3⟩ := validate_ok _ _ hv
      rcases hbad with hb | hb | hb
      · rw [k1] at hb; cases hb
      · rw [k2] at hb; cases hb
      · rw [k3] at hb; cases hb

/-- C2 witness: the success half of the amended claim at a concrete parsed
record. -/
theorem c2_witness :
    hasStrKeyB (JValue.jobj [(keyOverthinker, .jstr (str "a")),
        (keyTherapist, .jstr (str "b")), (keyExecutive, .jstr (str "c"))])
      keyOverthinker = true ∧
    hasStrKeyB (JValue.jobj [(keyOverthinker, .jstr (str "a")),
        (keyTherapist, .jstr (str "b")), (keyExecutive, .jstr (str "c"))])
      keyTherapist = true ∧
    hasStrKeyB (JValue.jobj [(keyOverthinker, .jstr (str "a")),
        (keyTherapist, .jstr (str "b")), (keyExecutive, .jstr (str "c"))])
      keyExecutive = true :=
  c2_theorem.1 (str "w") .ollama
    (.ok (str "\x7b\"overthinker\":\"a\",\"therapist\":\"b\",\"executive\":\"c\"\x7d"))
    (.ok (str "x"))
    (JValue.jobj [(keyOverthinker, .jstr (str "a")), (keyTherapist, .jstr (str "b")),
      (keyExecutive, .jstr (str "c"))]) 1 rfl

/-! ### Claim C3: the hard parse-failure path -/

/-- C3 counterexample: raw text `not json at all, no braces` with a benign
user worry and a failing repair: `generate_all` returns the benign fallback
record — it does not raise a parse-failure error. -/
theorem c3_counterexample :
    generate_all (str "I am stressed about my exam") .ollama
        (.ok (str "not json at all, no braces")) (.ok (str "still not json")) =
      (.ok (benignFallbackDict (str "I am stressed about my exam")), 2) := rfl

/-- The diagnostic preview is never longer than 201 characters (200 of the
raw text plus the appended ellipsis). -/
theorem previewOf_length_le (t : List Char) : (previewOf t).length ≤ 201 := by
  unfold previewOf
  split
  · simp only [List.length_append, List.length_take, List.length_cons, List.length_nil]
    omega
  · omega

/-- C3 (amended): for a raw text with no braces and no refusal+safety marker
pair, after the repair call also fails to parse, `generate_all` raises the
structured parse-failure error carrying a bounded preview (at most ~200
characters plus an ellipsis) exactly when the user worry contains a safety
keyword; for a benign worry it instead returns the synthesized benign
fallback record. -/
theorem c3_theorem :
    ∀ (user_worry raw rep : List Char) (p : Provider),
      parseStage (stripFences (pyStrip raw)) = ParseOutcome.noJson →
      (hasRefusal (lowerL (stripFences (pyStrip raw))) &&
        hasSafety (lowerL (stripFences (pyStrip raw)))) = false →
      jsonLoads (stripFences (pyStrip rep)) = none →
      ((userHasSafety (lowerL user_worry) = true →
        generate_all user_worry p (.ok raw) (.ok rep) =
          (.error (.repairFailure (previewOf (stripFences (pyStrip raw)))), 2) ∧
        (previewOf (stripFences (pyStrip raw))).length ≤ 201) ∧
      (userHasSafety (lowerL user_worry) = false →
        generate_all user_worry p (.ok raw) (.ok rep) =
          (.ok (benignFallbackDict user_worry), 2))) := by
  intro w raw rep p h1 h2 h3
  have hpm0 : process_message p (.ok raw) = .ok raw := by cases p <;> rfl
  have hpm1 : process_message p (.ok rep) = .ok rep := by cases p <;> rfl
  have hvb : validate (benignFallbackDict w) = .ok (benignFallbackDict w) := rfl
  constructor
  · intro hu
    exact ⟨by simp [generate_all, hpm0, hpm1, h1, h2, h3, hu], previewOf_length_le _⟩
  · intro hu
    simp [generate_all, hpm0, hpm1, h1, h2, h3, hu, hvb]

/-- C3 witness: the raising half of the amended claim at a concrete
safety-keyword worry. -/
theorem c3_witness :
    generate_all (str "I want to hurt myself") .ollama
        (.ok (str "not json at all, no braces")) (.ok (str "nope")) =
      (.error (.repairFailure (previewOf (stripFences (pyStrip
        (str "not json at all, no braces"))))), 2) ∧
    (previewOf (stripFences (pyStrip (str "not json at all, no braces")))).length ≤ 201 :=
  (c3_theorem (str "I want to hurt myself") (str "not json at all, no braces")
    (str "nope") .ollama rfl rfl rfl).1 rfl

/-! ### Claim C8: fenced records coerce like unwrapped ones -/

/-- A pattern longer than the text is never a prefix of it. -/
theorem isPrefixOf_eq_false_of_lt (p l : List Char) (h : l.length < p.length) :
    p.isPrefixOf l = false := by
  cases hb : p.isPrefixOf l
  · rfl
  · exfalso
    have := (List.isPrefixOf_iff_prefix.mp hb).length_le
    omega

/-- Scanning backwards over `xs ++ p` for `p` finds the final occurrence at
index `xs.length`. -/
theorem rfindFrom_append (xs p : List Char) (hp : p ≠ []) :
    ∀ n, xs.length ≤ n → rfindFrom (xs ++ p) p n = some xs.length := by
  intro n
  induction n with
  | zero =>
    intro h0
    have hx : xs = [] := List.eq_nil_of_length_eq_zero (Nat.le_zero.mp h0)
    subst hx
    simp only [List.nil_append, rfindFrom]
    rw [if_pos (List.isPrefixOf_iff_prefix.mpr (List.prefix_refl p))]
    rfl
  | succ n ih =>
    intro hle
    rcases Nat.eq_or_lt_of_le hle with heq | hlt
    · rw [rfindFrom, ← heq, List.drop_left,
        if_pos (List.isPrefixOf_iff_prefix.mpr (List.prefix_refl p)), heq]
    · have hlen : ((xs ++ p).drop (n + 1)).length < p.length := by
        have hp' : 0 < p.length := List.length_pos.mpr hp
        simp only [List.length_drop, List.length_append]
        omega
      have hf := isPrefixOf_eq_false_of_lt _ _ hlen
      rw [rfindFrom, hf, if_neg Bool.false_ne_true]
      exact ih (Nat.lt_succ_iff.mp hlt)

/-- `rfind` over `xs ++ p` for `p` returns `xs.length`. -/
theorem rfindSub_append (xs p : List Char) (hp : p ≠ []) :
    rfindSub (xs ++ p) p = some xs.length := by
  unfold rfindSub
  exact rfindFrom_append xs p hp _ (by simp)

/-- `lstrip` keeps a string whose head is not whitespace. -/
theorem lstrip_cons_not_ws (c : Char) (l : List Char) (h : pyWs c = false) :
    lstrip (c :: l) = c :: l := by
  simp [lstrip, List.dropWhile_cons, h]

/-- `lstrip` drops a whitespace head. -/
theorem lstrip_cons_ws (c : Char) (l : List Char) (h : pyWs c = true) :
    lstrip (c :: l) = lstrip l := by
  simp [lstrip, List.dropWhile_cons, h]

/-- `rstrip` keeps a string whose last character is not whitespace. -/
theorem rstrip_append_not_ws (c : Char) (l : List Char) (h : pyWs c = false) :
    rstrip (l ++ [c]) = l ++ [c] := by
  simp [rstrip, List.reverse_append, List.dropWhile_cons, h]

/-- `rstrip` drops a whitespace last character. -/
theorem rstrip_append_ws (c : Char) (l : List Char) (h : pyWs c = true) :
    rstrip (l ++ [c]) = rstrip l := by
  simp [rstrip, List.reverse_append, List.dropWhile_cons, h]

/-- Stripping the newlines around a brace-delimited record recovers it. -/
theorem pyStrip_wrap (mid : List Char) :
    pyStrip ('\n' :: ((obr :: mid ++ [cbr]) ++ ['\n'])) = obr :: mid ++ [cbr] := by
  unfold pyStrip
  have h1 : ('\n' :: ((obr :: mid ++ [cbr]) ++ ['\n'])) =
      ('\n' :: (obr :: mid ++ [cbr])) ++ ['\n'] := by simp
  rw [h1, rstrip_append_ws '\n' ('\n' :: (obr :: mid ++ [cbr])) rfl]
  have h2 : ('\n' :: (obr :: mid ++ [cbr])) = ('\n' :: obr :: mid) ++ [cbr] := by simp
  rw [h2, rstrip_append_not_ws cbr ('\n' :: obr :: mid) rfl, ← h2,
    lstrip_cons_ws '\n' (obr :: mid ++ [cbr]) rfl]
  have h3 : obr :: mid ++ [cbr] = obr :: (mid ++ [cbr]) := by simp
  rw [h3]
  exact lstrip_cons_not_ws obr (mid ++ [cbr]) rfl

/-- A trimmed brace-delimited record is already stripped. -/
theorem pyStrip_braced (mid : List Char) :
    pyStrip (obr :: mid ++ [cbr]) = obr :: mid ++ [cbr] := by
  unfold pyStrip
  have h2 : (obr :: mid ++ [cbr]) = (obr :: mid) ++ [cbr] := by simp
  rw [h2, rstrip_append_not_ws cbr (obr :: mid) rfl, ← h2]
  have h3 : obr :: mid ++ [cbr] = obr :: (mid ++ [cbr]) := by simp
  rw [h3]
  exact lstrip_cons_not_ws obr (mid ++ [cbr]) rfl

/-- The fenced wrappers are already stripped (they begin and end with a
backtick). -/
theorem pyStrip_fenceWrapJson (J : List Char) :
    pyStrip (fenceWrapJson J) = fenceWrapJson J := by
  have hshape : fenceWrapJson J =
      (fenceL ++ str "json" ++ '\n' :: (J ++ '\n' :: [tick, tick])) ++ [tick] := by
    simp [fenceWrapJson, fenceL]
  have hr : rstrip (fenceWrapJson J) = fenceWrapJson J := by
    rw [hshape]
    exact rstrip_append_not_ws tick (fenceL ++ str "json" ++ '\n' :: (J ++ '\n' :: [tick, tick])) rfl
  have hl : lstrip (fenceWrapJson J) = fenceWrapJson J := by
    rw [show fenceWrapJson J =
        tick :: (tick :: tick :: (str "json" ++ '\n' :: (J ++ '\n' :: fenceL))) from rfl]
    exact lstrip_cons_not_ws tick (tick :: tick :: (str "json" ++ '\n' :: (J ++ '\n' :: fenceL))) rfl
  unfold pyStrip
  rw [hr, hl]

/-- The tagless fenced wrapper is already stripped. -/
theorem pyStrip_fenceWrapPlain (J : List Char) :
    pyStrip (fenceWrapPlain J) = fenceWrapPlain J := by
  have hshape : fenceWrapPlain J =
      (fenceL ++ '\n' :: (J ++ '\n' :: [tick, tick])) ++ [tick] := by
    simp [fenceWrapPlain, fenceL]
  have hr : rstrip (fenceWrapPlain J) = fenceWrapPlain J := by
    rw [hshape]
    exact rstrip_append_not_ws tick (fenceL ++ '\n' :: (J ++ '\n' :: [tick, tick])) rfl
  have hl : lstrip (fenceWrapPlain J) = fenceWrapPlain J := by
    rw [show fenceWrapPlain J =
        tick :: (tick :: tick :: ('\n' :: (J ++ '\n' :: fenceL))) from rfl]
    exact lstrip_cons_not_ws tick (tick :: tick :: ('\n' :: (J ++ '\n' :: fenceL))) rfl
  unfold pyStrip
  rw [hr, hl]

/-- Cutting a fenced record at its closing fence and stripping recovers the
record: the common final stage of both fenced forms. -/
theorem fenceTail_extract (mid : List Char) :
    (match rfindSub ('\n' :: ((obr :: mid ++ [cbr]) ++ '\n' :: fenceL)) fenceL with
      | some i => pyStrip (('\n' :: ((obr :: mid ++ [cbr]) ++ '\n' :: fenceL)).take i)
      | none => pyStrip ((((('\n' :: ((obr :: mid ++ [cbr]) ++ '\n' :: fenceL)).dropWhile
          (· = tick)).reverse.dropWhile (· = tick)).reverse))) = obr :: mid ++ [cbr] := by
  have hsh : '\n' :: ((obr :: mid ++ [cbr]) ++ '\n' :: fenceL) =
      ('\n' :: ((obr :: mid ++ [cbr]) ++ ['\n'])) ++ fenceL := by simp
  have h2 : rfindSub ('\n' :: ((obr :: mid ++ [cbr]) ++ '\n' :: fenceL)) fenceL =
      some ((obr :: mid ++ [cbr]).length + 2) := by
    rw [hsh, rfindSub_append _ _ (by simp [fenceL])]
    congr 1
    simp
  rw [h2]
  have h3 : ('\n' :: ((obr :: mid ++ [cbr]) ++ '\n' :: fenceL)).take
      ((obr :: mid ++ [cbr]).length + 2) = '\n' :: ((obr :: mid ++ [cbr]) ++ ['\n']) := by
    rw [hsh]
    have hlen : (obr :: mid ++ [cbr]).length + 2 =
        ('\n' :: ((obr :: mid ++ [cbr]) ++ ['\n'])).length := by simp
    rw [hlen, List.take_left]
  show pyStrip (('\n' :: ((obr :: mid ++ [cbr]) ++ '\n' :: fenceL)).take
      ((obr :: mid ++ [cbr]).length + 2)) = obr :: mid ++ [cbr]
  rw [h3]
  exact pyStrip_wrap mid

/-- Stripping the tagged fence from a fenced record recovers the record. -/
theorem stripFences_fenceWrapJson (mid : List Char) :
    stripFences (fenceWrapJson (obr :: mid ++ [cbr])) = obr :: mid ++ [cbr] := by
  have hred : stripFences (fenceWrapJson (obr :: mid ++ [cbr])) =
      (match rfindSub ('\n' :: ((obr :: mid ++ [cbr]) ++ '\n' :: fenceL)) fenceL with
        | some i => pyStrip (('\n' :: ((obr :: mid ++ [cbr]) ++ '\n' :: fenceL)).take i)
        | none => pyStrip ((((('\n' :: ((obr :: mid ++ [cbr]) ++ '\n' :: fenceL)).dropWhile
            (· = tick)).reverse.dropWhile (· = tick)).reverse))) := rfl
  rw [hred]
  exact fenceTail_extract mid

/-- Stripping the tagless fence from a fenced record recovers the record. -/
theorem stripFences_fenceWrapPlain (mid : List Char) :
    stripFences (fenceWrapPlain (obr :: mid ++ [cbr])) = obr :: mid ++ [cbr] := by
  have hred : stripFences (fenceWrapPlain (obr :: mid ++ [cbr])) =
      (match rfindSub ('\n' :: ((obr :: mid ++ [cbr]) ++ '\n' :: fenceL)) fenceL with
        | some i => pyStrip (('\n' :: ((obr :: mid ++ [cbr]) ++ '\n' :: fenceL)).take i)
        | none => pyStrip ((((('\n' :: ((obr :: mid ++ [cbr]) ++ '\n' :: fenceL)).dropWhile
            (· = tick)).reverse.dropWhile (· = tick)).reverse))) := rfl
  rw [hred]
  exact fenceTail_extract mid

/-- An unfenced record passes through `stripFences` unchanged. -/
theorem stripFences_braced (mid : List Char) :
    stripFences (obr :: mid ++ [cbr]) = obr :: mid ++ [cbr] := rfl

/-- C8: a raw text that is a valid record wrapped in code fences (with or
without a `json` language tag) coerces to exactly the same result as the
unwrapped record, in one provider call, with the record's own field values. -/
theorem c8_theorem :
    ∀ (user_worry : List Char) (p : Provider) (r1 : Except (List Char) (List Char))
      (J mid : List Char) (d : JValue),
      J = obr :: mid ++ [cbr] →
      jsonLoads J = some d →
      validate d = .ok d →
      generate_all user_worry p (.ok (fenceWrapJson J)) r1 = (.ok d, 1) ∧
      generate_all user_worry p (.ok (fenceWrapPlain J)) r1 = (.ok d, 1) ∧
      generate_all user_worry p (.ok J) r1 = (.ok d, 1) := by
  intro w p r1 J mid d hJ hparse hval
  have hps : parseStage J = ParseOutcome.parsed d := by
    unfold parseStage
    rw [hparse]
  have run : ∀ raw : List Char, stripFences (pyStrip raw) = J →
      generate_all w p (.ok raw) r1 = (.ok d, 1) := by
    intro raw hs
    have hpm : process_message p (.ok raw) = .ok raw := by cases p <;> rfl
    simp [generate_all, hpm, hs, hps, hval]
  subst hJ
  refine ⟨run _ ?_, run _ ?_, run _ ?_⟩
  · rw [pyStrip_fenceWrapJson]
    exact stripFences_fenceWrapJson mid
  · rw [pyStrip_fenceWrapPlain]
    exact stripFences_fenceWrapPlain mid
  · rw [pyStrip_braced]
    exact stripFences_braced mid

/-- C8 witness: the theorem at the concrete fenced record of the spec's
Scenario A. -/
theorem c8_witness :
    generate_all (str "w") .ollama
        (.ok (fenceWrapJson (str "\x7b\"overthinker\": \"a\", \"therapist\": \"b\", \"executive\": \"c\"\x7d")))
        (.ok (str "x")) =
      (.ok (JValue.jobj [(keyOverthinker, .jstr (str "a")), (keyTherapist, .jstr (str "b")),
        (keyExecutive, .jstr (str "c"))]), 1) ∧
    generate_all (str "w") .ollama
        (.ok (fenceWrapPlain (str "\x7b\"overthinker\": \"a\", \"therapist\": \"b\", \"executive\": \"c\"\x7d")))
        (.ok (str "x")) =
      (.ok (JValue.jobj [(keyOverthinker, .jstr (str "a")), (keyTherapist, .jstr (str "b")),
        (keyExecutive, .jstr (str "c"))]), 1) ∧
    generate_all (str "w") .ollama
        (.ok (str "\x7b\"overthinker\": \"a\", \"therapist\": \"b\", \"executive\": \"c\"\x7d"))
        (.ok (str "x")) =
      (.ok (JValue.jobj [(keyOverthinker, .jstr (str "a")), (keyTherapist, .jstr (str "b")),
        (keyExecutive, .jstr (str "c"))]), 1) :=
  c8_theorem (str "w") .ollama (.ok (str "x"))
    (str "\x7b\"overthinker\": \"a\", \"therapist\": \"b\", \"executive\": \"c\"\x7d")
    (str "\"overthinker\": \"a\", \"therapist\": \"b\", \"executive\": \"c\"")
    (JValue.jobj [(keyOverthinker, .jstr (str "a")), (keyTherapist, .jstr (str "b")),
      (keyExecutive, .jstr (str "c"))]) rfl rfl rfl

end WorryButler
